import Mathlib

/-!
Shallow embedding of the caching decrypt pipeline of
`decrypt_data_cached.py` (energyDataDashboard), together with the generic
save helper of `utils/helpers.py`, and proofs of the behavioural claims
about them.

Modelling conventions:
* JSON scalar values that the cache logic reads and writes (hash strings,
  ISO timestamps, sizes, URLs) are modelled by `JVal`; decrypted payloads
  enter the pipeline opaquely and are carried as `JVal` values as well,
  since the pipeline never inspects their structure.
* A metadata dict is an insertion-ordered association list, matching
  Python dict semantics for `get` and item assignment.
* Wall-clock times and file modification times are integers in seconds;
  `get_file_age_hours` divides by 3600 and compares against 24, which over
  the rationals is equivalent to comparing the age in seconds with 86400.
* The environment (`Env`) fixes the outcome of each network attempt, the
  behaviour of the opaque cryptographic handler's `decrypt_and_verify`
  (out of scope of the repository: consumed as an external collaborator),
  the SHA-256 digest function (abstract, instantiated concretely in
  witnesses), and whether the two file writes of a cycle raise.
* `base64.b64decode` is modelled at the granularity the program observes:
  the number of decoded bytes (the decoded bytes themselves only flow into
  the opaque handler).  Python's non-strict decoder discards characters
  outside the alphabet and stops at the first padding group; `str.isalnum`
  is modelled as ASCII alphanumeric.
-/

/-- JSON scalar values manipulated by the cache logic. -/
inductive JVal where
  | str (s : String)
  | num (n : Int)
deriving DecidableEq, Repr

/-- A JSON object (Python dict) as an insertion-ordered association list. -/
abbrev Metadata := List (String × JVal)

/-- Python `dict.get`: the value at the first occurrence of the key. -/
def metaGet (md : Metadata) (k : String) : Option JVal :=
  match md with
  | [] => none
  | (k', v) :: rest => if k' = k then some v else metaGet rest k

/-- Python dict item assignment: replace the value in place if the key is
present, append otherwise. -/
def metaSet (md : Metadata) (k : String) (v : JVal) : Metadata :=
  match md with
  | [] => [(k, v)]
  | (k', v') :: rest =>
      if k' = k then (k', v) :: rest else (k', v') :: metaSet rest k v

/-- Content of the snapshot file: either a completely written plaintext
value, or a truncated file left behind by a write that raised after
`open(path, 'w')` had already truncated it. -/
inductive SnapContent where
  | full (v : JVal)
  | truncated
deriving DecidableEq, Repr

/-- The snapshot file on disk: content plus modification time (seconds). -/
structure SnapFile where
  content : SnapContent
  mtime : Int
deriving DecidableEq, Repr

instance {ε α : Type} [DecidableEq ε] [DecidableEq α] :
    DecidableEq (Except ε α) := fun a b =>
  match a, b with
  | .error e, .error e' =>
      if h : e = e' then isTrue (by rw [h]) else isFalse (by simp [h])
  | .error _, .ok _ => isFalse (by simp)
  | .ok _, .error _ => isFalse (by simp)
  | .ok v, .ok v' =>
      if h : v = v' then isTrue (by rw [h]) else isFalse (by simp [h])

/-- The on-disk state the pipeline touches: the output (Snapshot) file and
the metadata sidecar.  The metadata file is absent (`none`), present but
unparseable (`some (Except.error ())`), or parseable JSON. -/
structure FS where
  snapshot : Option SnapFile
  metadataFile : Option (Except Unit Metadata)
deriving DecidableEq, Repr

/-- Outcome of one network attempt inside `fetch_with_retry`. -/
inductive FetchOutcome where
  | success (data : String)
  | httpError (code : Nat)
  | netError
  | otherError
deriving DecidableEq, Repr

/-- Error raised out of `fetch_with_retry`. -/
inductive FetchErr where
  | client (code : Nat)
  | exhausted
deriving DecidableEq, Repr

/-- Result of `fetch_with_retry`: the returned data or raised error, the
number of attempts made, and the list of back-off waits performed, in
order. -/
structure FetchResult where
  result : Except FetchErr String
  attempts : Nat
  waits : List Nat
deriving DecidableEq, Repr

/-- Test `e.code in [404, 403, 401]`: client errors that abort the retry loop. -/
def isClientErrorCode (code : Nat) : Bool :=
  code = 404 || code = 403 || code = 401

/-- How the `try/except` chain of one loop iteration disposes of the
attempt: return the data, re-raise (client HTTP error), or fall through to
the retry logic (any other error). -/
inductive AttemptClass where
  | done (data : String)
  | abort (code : Nat)
  | retry
deriving DecidableEq, Repr

/-- The `except` chain of `fetch_with_retry`: HTTP 404/403/401 re-raises;
every other `HTTPError`, `URLError` and unexpected exception is retried. -/
def classifyAttempt : FetchOutcome → AttemptClass
  | .success d => .done d
  | .httpError code =>
      if isClientErrorCode code then .abort code else .retry
  | .netError => .retry
  | .otherError => .retry

/-- The `for attempt in range(max_retries)` loop of `fetch_with_retry`,
with `fuel` the remaining iterations.  After a retryable failure the loop
waits `delay` and doubles it, but only when another iteration remains
(`attempt < max_retries - 1`); exhausting the loop raises. -/
def fetchGo (outcomes : Nat → FetchOutcome) :
    Nat → Nat → Nat → FetchResult
  | 0, _, _ => ⟨Except.error FetchErr.exhausted, 0, []⟩
  | fuel + 1, attempt, delay =>
    match classifyAttempt (outcomes attempt) with
    | .done d => ⟨Except.ok d, 1, []⟩
    | .abort code => ⟨Except.error (FetchErr.client code), 1, []⟩
    | .retry =>
        if fuel = 0 then ⟨Except.error FetchErr.exhausted, 1, []⟩
        else
          let r := fetchGo outcomes fuel (attempt + 1) (delay * 2)
          ⟨r.result, r.attempts + 1, delay :: r.waits⟩

/-- Model of `fetch_with_retry(url, max_retries, initial_delay)`, the network
behaviour abstracted into the per-attempt outcome oracle. -/
def fetch_with_retry (outcomes : Nat → FetchOutcome)
    (max_retries initial_delay : Nat) : FetchResult :=
  fetchGo outcomes max_retries 0 initial_delay

/-- ASCII alphanumeric, modelling `str.isalnum` on key material. -/
def isAsciiAlnum (c : Char) : Bool :=
  (('A' ≤ c && c ≤ 'Z') || ('a' ≤ c && c ≤ 'z') || ('0' ≤ c && c ≤ '9'))

/-- Character of the standard base64 alphabet (without padding). -/
def isB64Alpha (c : Char) : Bool :=
  isAsciiAlnum c || c = '+' || c = '/'

/-- Number of bytes produced by `base64.b64decode` on an
already-filtered character list: groups of four, a padding character
ending the decode early (Python's non-strict decoder stops at the first
padding group); a leftover group of 1-3 characters is an incorrect-padding
error. -/
def b64DecLen : List Char → Option Nat
  | [] => some 0
  | c1 :: c2 :: c3 :: c4 :: rest =>
      if c1 = '=' || c2 = '=' then some 0
      else if c3 = '=' then some 1
      else if c4 = '=' then some 2
      else (b64DecLen rest).map (· + 3)
  | _ => none

/-- Model of `validate_base64_key(key_b64, key_name, expected_length)`: presence,
then the `replace('=','').replace('+','').replace('/','').isalnum()`
shape check, then `base64.b64decode`, then the exact decoded-length check.
Any failure raises `ValueError` (modelled `Except.error ()`); on success
the program only ever uses the length of the decoded key, which is
returned. -/
def validate_base64_key (key_b64 : Option String)
    (expected_length : Nat) : Except Unit Nat :=
  match key_b64 with
  | none => Except.error ()
  | some s =>
    if s.isEmpty then Except.error ()
    else
      let stripped := s.toList.filter fun c => !(c = '=' || c = '+' || c = '/')
      if !(!stripped.isEmpty && stripped.all isAsciiAlnum) then
        Except.error ()
      else
        match b64DecLen (s.toList.filter fun c => isB64Alpha c || c = '=') with
        | none => Except.error ()
        | some n =>
            if n = expected_length then Except.ok n else Except.error ()

/-- Constant `DATA_SOURCE_URL` of decrypt_data_cached.py. -/
def DATA_SOURCE_URL : String :=
  "https://ducroq.github.io/energydatahub/energy_price_forecast.json"

/-- Constant `CACHE_MAX_AGE_HOURS` of decrypt_data_cached.py. -/
def CACHE_MAX_AGE_HOURS : Int := 24

/-- Value of `datetime.now()` as later serialized by `json_serializer` into an
ISO-8601 string: modelled as an injective rendering of the clock value
(no claim inspects the string's format). -/
def isoTime (t : Int) : String := toString t

/-- Everything one invocation of the pipeline observes about the outside
world: the clock, the two key environment variables, the outcome of each
network attempt, the opaque cryptographic handler's `decrypt_and_verify`
(an external collaborator, not part of this repository's core sources),
the SHA-256 digest function (abstract), and whether each of the two file
writes of a cycle succeeds or raises. -/
structure Env where
  now : Int
  encKeyB64 : Option String
  hmacKeyB64 : Option String
  fetchOutcomes : Nat → FetchOutcome
  decrypt : String → Except Unit JVal
  hash : String → String
  snapshotWriteOk : Bool
  metadataWriteOk : Bool

/-- Model of `get_file_age_hours(output_path)` in seconds: `time.time()` minus the
file's mtime, or `none` when the file does not exist.  (The division by
3600 is folded into the callers' comparisons, which over the rationals is
exact.) -/
def get_file_age_seconds (env : Env) (fs : FS) : Option Int :=
  match fs.snapshot with
  | none => none
  | some snap => some (env.now - snap.mtime)

/-- Model of `load_metadata(metadata_path)`: empty dict when the file is missing,
empty dict (plus a logged warning) when reading or JSON-parsing raises,
the parsed dict otherwise. -/
def load_metadata (fs : FS) : Metadata :=
  match fs.metadataFile with
  | none => []
  | some (Except.error _) => []
  | some (Except.ok md) => md

/-- Model of `save_metadata(metadata_path, metadata)`: writes the dict; every
exception is caught and only logged, leaving the file as it was. -/
def save_metadata (env : Env) (fs : FS) (md : Metadata) : FS :=
  if env.metadataWriteOk then { fs with metadataFile := some (Except.ok md) }
  else fs

/-- Model of `should_skip_decryption(output_path, metadata_path)`: skip only when
the output file exists and its age is not above `CACHE_MAX_AGE_HOURS`
(the `age_hours is None` branch is unreachable after the existence check;
the metadata load that follows is only logged). -/
def should_skip_decryption (env : Env) (fs : FS) : Bool :=
  match fs.snapshot with
  | none => false
  | some snap =>
      if env.now - snap.mtime > CACHE_MAX_AGE_HOURS * 3600 then false
      else true

/-- Observable outcome of one call of `fetch_and_decrypt_energy_data`:
the returned boolean, the final file-system state, whether the freshness
gate short-circuited, how many network attempts were made and how many
times `decrypt_and_verify` was invoked. -/
structure RunResult where
  success : Bool
  fs : FS
  gateSkipped : Bool
  fetchAttempts : Nat
  decryptCalls : Nat
deriving Repr

/-- The outer `except` handler of `fetch_and_decrypt_energy_data`: if the
output file exists (of any age and content), log a warning and return
success; otherwise return failure. -/
def exceptFallback (fs : FS) (attempts decrypts : Nat) : RunResult :=
  if fs.snapshot.isSome then
    { success := true, fs := fs, gateSkipped := false,
      fetchAttempts := attempts, decryptCalls := decrypts }
  else
    { success := false, fs := fs, gateSkipped := false,
      fetchAttempts := attempts, decryptCalls := decrypts }

/-- The `new_metadata` dict literal written by a full decrypt cycle of
`fetch_and_decrypt_energy_data`: both timestamps, the new digest, the
ciphertext length under the key `file_size_bytes`, the source URL and the
configured max age. -/
def newCycleMetadata (env : Env) (encrypted_data : String) : Metadata :=
  [("last_fetch_time", JVal.str (isoTime env.now)),
   ("last_check_time", JVal.str (isoTime env.now)),
   ("data_hash", JVal.str (env.hash encrypted_data)),
   ("file_size_bytes", JVal.num (encrypted_data.length : Int)),
   ("source_url", JVal.str DATA_SOURCE_URL),
   ("cache_max_age_hours", JVal.num CACHE_MAX_AGE_HOURS)]

/-- Model of `fetch_and_decrypt_energy_data(force_refresh)` of
decrypt_data_cached.py.  Freshness gate, then sequential key validation
(a `ValueError` returns `False` directly, before the outer handler can
fall back), then `fetch_with_retry(URL, 3, 2)`, then the hash-match skip
path (update `last_check_time` only), else `decrypt_and_verify`, the
in-place snapshot write (`open(path, 'w')` truncates before `json.dump`
writes, so a raising write leaves a truncated file and lands in the outer
fallback handler), and the full metadata rewrite. -/
def fetch_and_decrypt_energy_data (env : Env) (fs : FS)
    (force_refresh : Bool) : RunResult :=
  if !force_refresh && should_skip_decryption env fs then
    { success := true, fs := fs, gateSkipped := true,
      fetchAttempts := 0, decryptCalls := 0 }
  else
    match validate_base64_key env.encKeyB64 32 with
    | Except.error _ =>
        { success := false, fs := fs, gateSkipped := false,
          fetchAttempts := 0, decryptCalls := 0 }
    | Except.ok _ =>
      match validate_base64_key env.hmacKeyB64 32 with
      | Except.error _ =>
          { success := false, fs := fs, gateSkipped := false,
            fetchAttempts := 0, decryptCalls := 0 }
      | Except.ok _ =>
        let fr := fetch_with_retry env.fetchOutcomes 3 2
        match fr.result with
        | Except.error _ => exceptFallback fs fr.attempts 0
        | Except.ok encrypted_data =>
          let data_hash := env.hash encrypted_data
          let metadata := load_metadata fs
          let previous_hash := metaGet metadata "data_hash"
          if previous_hash = some (JVal.str data_hash) ∧ fs.snapshot.isSome then
            let metadata' :=
              metaSet metadata "last_check_time" (JVal.str (isoTime env.now))
            { success := true, fs := save_metadata env fs metadata',
              gateSkipped := false, fetchAttempts := fr.attempts,
              decryptCalls := 0 }
          else
            match env.decrypt encrypted_data with
            | Except.error _ => exceptFallback fs fr.attempts 1
            | Except.ok decrypted =>
              if env.snapshotWriteOk then
                let fs1 := { fs with
                  snapshot := some ⟨SnapContent.full decrypted, env.now⟩ }
                { success := true,
                  fs := save_metadata env fs1 (newCycleMetadata env encrypted_data),
                  gateSkipped := false, fetchAttempts := fr.attempts,
                  decryptCalls := 1 }
              else
                exceptFallback
                  { fs with snapshot := some ⟨SnapContent.truncated, env.now⟩ }
                  fr.attempts 1

/-- Exceptions observable from `save_data_file` of utils/helpers.py. -/
inductive PyErr where
  | valueError
  | attributeError
deriving DecidableEq, Repr

/-- Model of `save_data_file(data, file_path, handler, encrypt)` of
utils/helpers.py, for `data` a Python dict (the documented argument
type, `Dict[str, Any]`).  With `encrypt=True` it first checks the
handler, then evaluates `data.to_dict()`; with `encrypt=False` it
evaluates `data.write_to_json(file_path)`.  A Python dict has neither
attribute, so the attribute lookup raises `AttributeError`, which the
`except` block logs and re-raises; the opaque `encrypt_and_sign`
capability is never reached.  On success the call would produce the file
content written at `file_path`. -/
def save_data_file (data : Metadata) (filePath : String)
    (handler : Option (Metadata → String)) (encrypt : Bool) :
    Except PyErr String :=
  if encrypt then
    match handler with
    | none => Except.error PyErr.valueError
    | some _ => Except.error PyErr.attributeError
  else
    Except.error PyErr.attributeError

/-- A well-formed base64 key string decoding to exactly 32 bytes:
43 characters `A` followed by one padding character. -/
def goodKey : String := String.mk (List.replicate 43 'A' ++ ['='])

/-- Attempt outcomes used by concrete instantiations: two transient
network failures, then success. -/
def cseq73 : Nat → FetchOutcome := fun i =>
  if i < 2 then FetchOutcome.netError else FetchOutcome.success "DATA"

/-- Concrete world: the remote returns ciphertext `CT` at once, decryption
rejects it (never reached on the hash-match path), digest is modelled by
the identity function, both file writes succeed. -/
def envHashMatch : Env :=
  { now := 999, encKeyB64 := some goodKey, hmacKeyB64 := some goodKey,
    fetchOutcomes := fun _ => FetchOutcome.success "CT",
    decrypt := fun _ => Except.error (), hash := fun s => s,
    snapshotWriteOk := true, metadataWriteOk := true }

/-- Concrete on-disk state whose stored hash matches ciphertext `CT`
under the identity digest. -/
def fsHashMatch : FS :=
  { snapshot := some ⟨SnapContent.full (JVal.num 7), 0⟩,
    metadataFile := some (Except.ok
      [("data_hash", JVal.str "CT"), ("last_fetch_time", JVal.str "t0")]) }

/-- Concrete world: fetch succeeds with `CT`, decryption succeeds with the
payload `5`, both file writes succeed. -/
def envDecOk : Env :=
  { now := 1000000, encKeyB64 := some goodKey, hmacKeyB64 := some goodKey,
    fetchOutcomes := fun _ => FetchOutcome.success "CT",
    decrypt := fun _ => Except.ok (JVal.num 5), hash := fun s => s,
    snapshotWriteOk := true, metadataWriteOk := true }

/-- Like `envDecOk` but the metadata write raises. -/
def envMetaFail : Env :=
  { envDecOk with metadataWriteOk := false }

/-- Like `envDecOk` but the snapshot write raises (after `open(path,'w')`
already truncated the file). -/
def envSnapFail : Env :=
  { envDecOk with snapshotWriteOk := false }

/-- Concrete world for the freshness gate: clock one hour past the
snapshot's mtime; keys absent, network down and writes failing, none of
which the gate may touch. -/
def envFresh : Env :=
  { now := 3600, encKeyB64 := none, hmacKeyB64 := none,
    fetchOutcomes := fun _ => FetchOutcome.netError,
    decrypt := fun _ => Except.error (), hash := fun s => s,
    snapshotWriteOk := false, metadataWriteOk := false }

/-- Like `envDecOk` but every network attempt fails transiently. -/
def envExhaust : Env :=
  { envDecOk with fetchOutcomes := fun _ => FetchOutcome.netError }

/-- Like `envDecOk` but the encryption key variable is unset. -/
def envBadKey : Env :=
  { envDecOk with encKeyB64 := none }

/-- A fresh snapshot file written at time 0. -/
def snapAtZero : SnapFile := ⟨SnapContent.full (JVal.num 7), 0⟩

/-- On-disk state with a snapshot from time 0 and no metadata file. -/
def fsStale : FS := { snapshot := some snapAtZero, metadataFile := none }

/-- Empty on-disk state: no snapshot, no metadata. -/
def fsEmpty : FS := { snapshot := none, metadataFile := none }

/-- On-disk state with a snapshot and an unparseable metadata file. -/
def fsCorruptMeta : FS :=
  { snapshot := some snapAtZero, metadataFile := some (Except.error ()) }

theorem metaGet_metaSet_same (md : Metadata) (k : String) (v : JVal) :
    metaGet (metaSet md k v) k = some v := by
  induction md with
  | nil => simp [metaSet, metaGet]
  | cons hd tl ih =>
      obtain ⟨k', v'⟩ := hd
      by_cases h : k' = k
      · simp [metaSet, metaGet, h]
      · simp [metaSet, metaGet, h, ih]

theorem metaGet_metaSet_ne (md : Metadata) (k k2 : String) (v : JVal)
    (h : k2 ≠ k) :
    metaGet (metaSet md k v) k2 = metaGet md k2 := by
  induction md with
  | nil =>
      simp only [metaSet, metaGet]
      rw [if_neg fun hh => h (hh.symm)]
  | cons hd tl ih =>
      obtain ⟨k', v'⟩ := hd
      by_cases hk : k' = k
      · simp only [metaSet, if_pos hk, metaGet]
        rw [if_neg fun hh => h (hk.symm.trans hh).symm,
            if_neg fun hh => h (hk.symm.trans hh).symm]
      · simp only [metaSet, if_neg hk, metaGet]
        by_cases h2 : k' = k2
        · rw [if_pos h2, if_pos h2]
        · rw [if_neg h2, if_neg h2, ih]

theorem exceptFallback_fs (fs : FS) (a d : Nat) :
    (exceptFallback fs a d).fs = fs := by
  unfold exceptFallback
  split <;> rfl

theorem exceptFallback_success (fs : FS) (a d : Nat) :
    (exceptFallback fs a d).success = fs.snapshot.isSome := by
  unfold exceptFallback
  split <;> simp_all

theorem exceptFallback_decryptCalls (fs : FS) (a d : Nat) :
    (exceptFallback fs a d).decryptCalls = d := by
  unfold exceptFallback
  split <;> rfl

theorem exceptFallback_gateSkipped (fs : FS) (a d : Nat) :
    (exceptFallback fs a d).gateSkipped = false := by
  unfold exceptFallback
  split <;> rfl

theorem fetchGo_retry_then_success (outcomes : Nat → FetchOutcome)
    (d : String) :
    ∀ (N fuel attempt delay : Nat), N < fuel →
    (∀ i, i < N → classifyAttempt (outcomes (attempt + i)) = AttemptClass.retry) →
    outcomes (attempt + N) = FetchOutcome.success d →
    fetchGo outcomes fuel attempt delay =
      ⟨Except.ok d, N + 1, (List.range N).map fun i => delay * 2 ^ i⟩ := by
  intro N
  induction N with
  | zero =>
      intro fuel attempt delay hfuel _ hsucc
      obtain ⟨f, rfl⟩ : ∃ f, fuel = f + 1 :=
        ⟨fuel - 1, (Nat.succ_pred_eq_of_pos hfuel).symm⟩
      rw [Nat.add_zero] at hsucc
      simp [fetchGo, hsucc, classifyAttempt]
  | succ n ih =>
      intro fuel attempt delay hfuel hfail hsucc
      obtain ⟨f, rfl⟩ : ∃ f, fuel = f + 1 :=
        ⟨fuel - 1, (Nat.succ_pred_eq_of_pos (Nat.lt_of_le_of_lt (Nat.zero_le _) hfuel)).symm⟩
      have hn : n < f := Nat.lt_of_succ_lt_succ hfuel
      have hretry : classifyAttempt (outcomes attempt) = AttemptClass.retry := by
        have := hfail 0 (Nat.succ_pos n)
        simpa using this
      have hrec := ih f (attempt + 1) (delay * 2) hn
        (fun i hi => by
          have e : attempt + 1 + i = attempt + (i + 1) := by omega
          rw [e]
          exact hfail (i + 1) (Nat.succ_lt_succ hi))
        (by
          have e : attempt + 1 + n = attempt + (n + 1) := by omega
          rw [e]
          exact hsucc)
      have hf : f ≠ 0 := Nat.pos_iff_ne_zero.mp (Nat.lt_of_le_of_lt (Nat.zero_le _) hn)
      simp only [fetchGo, hretry, hrec]
      rw [if_neg hf]
      simp only [FetchResult.mk.injEq, true_and]
      rw [List.range_succ_eq_map, List.map_cons, List.map_map]
      simp only [pow_zero, Nat.mul_one, List.cons.injEq, true_and,
        List.map_inj_left, Function.comp_apply]
      intro a _
      rw [pow_succ]
      ring

/-- C7: if the first N attempts of `fetch_with_retry` fail with retryable
errors and attempt N+1 succeeds, with N+1 ≤ max_retries, then exactly N+1
attempts are made, the waits between consecutive attempts are
`initial_delay, 2*initial_delay, ..., 2^(N-1)*initial_delay` in that
order, and no wait occurs after the final attempt (the wait list has
exactly N entries, one per inter-attempt gap). -/
theorem fetch_with_retry_backoff_schedule (outcomes : Nat → FetchOutcome)
    (max_retries initial_delay N : Nat) (d : String)
    (hmr : 1 ≤ max_retries)
    (hN : N + 1 ≤ max_retries)
    (hfail : ∀ i, i < N → classifyAttempt (outcomes i) = AttemptClass.retry)
    (hsucc : outcomes N = FetchOutcome.success d) :
    (fetch_with_retry outcomes max_retries initial_delay).result = Except.ok d ∧
    (fetch_with_retry outcomes max_retries initial_delay).attempts = N + 1 ∧
    (fetch_with_retry outcomes max_retries initial_delay).waits =
      (List.range N).map fun i => 2 ^ i * initial_delay := by
  have h := fetchGo_retry_then_success outcomes d N max_retries 0 initial_delay
    (Nat.lt_of_lt_of_le (Nat.lt_succ_self N) hN)
    (fun i hi => by simpa using hfail i hi)
    (by simpa using hsucc)
  unfold fetch_with_retry
  rw [h]
  refine ⟨rfl, rfl, ?_⟩
  apply List.map_congr_left
  intro i _
  exact Nat.mul_comm initial_delay (2 ^ i)

/-- C7 witness: two transient failures then success within three allowed
attempts makes three attempts with waits 5 and 10. -/
theorem fetch_with_retry_backoff_schedule_witness :
    (fetch_with_retry cseq73 3 5).result = Except.ok "DATA" ∧
    (fetch_with_retry cseq73 3 5).attempts = 3 ∧
    (fetch_with_retry cseq73 3 5).waits =
      (List.range 2).map fun i => 2 ^ i * 5 :=
  fetch_with_retry_backoff_schedule cseq73 3 5 2 "DATA" (by decide) (by decide)
    (fun i hi => by
      interval_cases i <;> decide)
    (by decide)

/-- C3: when the Snapshot file exists, its age (now minus last-modified)
is at most the configured 24-hour max-age, and no forced refresh was
requested, `fetch_and_decrypt_energy_data` returns success with no
network attempt and no mutation of the metadata file (the whole file
system is unchanged); and a `force_refresh` request unconditionally
bypasses this short-circuit regardless of age. -/
theorem freshness_gate_no_op (env : Env) (fs : FS) (snap : SnapFile)
    (hsnap : fs.snapshot = some snap)
    (hage : env.now - snap.mtime ≤ CACHE_MAX_AGE_HOURS * 3600) :
    (fetch_and_decrypt_energy_data env fs false).success = true ∧
    (fetch_and_decrypt_energy_data env fs false).fetchAttempts = 0 ∧
    (fetch_and_decrypt_energy_data env fs false).fs = fs ∧
    ∀ (env' : Env) (fs' : FS),
      (fetch_and_decrypt_energy_data env' fs' true).gateSkipped = false := by
  have hskip : should_skip_decryption env fs = true := by
    simp only [should_skip_decryption, hsnap]
    rw [if_neg (not_lt.mpr hage)]
  have hrun : fetch_and_decrypt_energy_data env fs false =
      { success := true, fs := fs, gateSkipped := true,
        fetchAttempts := 0, decryptCalls := 0 } := by
    unfold fetch_and_decrypt_energy_data
    simp [hskip]
  refine ⟨by rw [hrun], by rw [hrun], by rw [hrun], ?_⟩
  intro env' fs'
  simp only [fetch_and_decrypt_energy_data, Bool.not_true, Bool.false_and,
    Bool.false_eq_true, if_false]
  split
  · rfl
  · split
    · rfl
    · split
      · rw [exceptFallback_gateSkipped]
      · split
        · rfl
        · split
          · rw [exceptFallback_gateSkipped]
          · split
            · rfl
            · rw [exceptFallback_gateSkipped]

/-- C3 witness: a one-hour-old snapshot short-circuits the pipeline even
though the keys are absent, the network is down and the writes would
fail. -/
theorem freshness_gate_no_op_witness :
    envFresh.now - snapAtZero.mtime ≤ CACHE_MAX_AGE_HOURS * 3600 ∧
    (fetch_and_decrypt_energy_data envFresh fsStale false).success = true ∧
    (fetch_and_decrypt_energy_data envFresh fsStale false).fetchAttempts = 0 ∧
    (fetch_and_decrypt_energy_data envFresh fsStale false).fs = fsStale :=
  ⟨by decide,
   (freshness_gate_no_op envFresh fsStale snapAtZero rfl (by decide)).1,
   (freshness_gate_no_op envFresh fsStale snapAtZero rfl (by decide)).2.1,
   (freshness_gate_no_op envFresh fsStale snapAtZero rfl (by decide)).2.2.1⟩

/-- C5: when the freshness gate does not short-circuit and key validation
fails (a key missing, not validly base64-encoded, or not decoding to
exactly 32 bytes), `fetch_and_decrypt_energy_data` returns failure
immediately: no network attempt, no decrypt call, the file system
untouched — in particular no fallback to an existing snapshot, since the
conclusion holds whether or not one exists. -/
theorem key_validation_failure_fails_immediately (env : Env) (fs : FS)
    (force_refresh : Bool)
    (hgate : force_refresh = true ∨ should_skip_decryption env fs = false)
    (hbad : validate_base64_key env.encKeyB64 32 = Except.error () ∨
            validate_base64_key env.hmacKeyB64 32 = Except.error ()) :
    (fetch_and_decrypt_energy_data env fs force_refresh).success = false ∧
    (fetch_and_decrypt_energy_data env fs force_refresh).fetchAttempts = 0 ∧
    (fetch_and_decrypt_energy_data env fs force_refresh).decryptCalls = 0 ∧
    (fetch_and_decrypt_energy_data env fs force_refresh).fs = fs := by
  have hg : (!force_refresh && should_skip_decryption env fs) = false := by
    rcases hgate with h | h <;> simp [h]
  have hrun : fetch_and_decrypt_energy_data env fs force_refresh =
      { success := false, fs := fs, gateSkipped := false,
        fetchAttempts := 0, decryptCalls := 0 } := by
    simp only [fetch_and_decrypt_energy_data, hg, Bool.false_eq_true, if_false]
    rcases he : validate_base64_key env.encKeyB64 32 with u | k
    · rfl
    · rcases hh : validate_base64_key env.hmacKeyB64 32 with u | k2
      · rfl
      · rcases hbad with h | h
        · rw [he] at h
          exact absurd h (by simp)
        · rw [hh] at h
          exact absurd h (by simp)
  exact ⟨by rw [hrun], by rw [hrun], by rw [hrun], by rw [hrun]⟩

/-- C5 witness: the encryption key variable is unset, a stale snapshot
exists, and the call still fails with nothing touched. -/
theorem key_validation_failure_fails_immediately_witness :
    validate_base64_key envBadKey.encKeyB64 32 = Except.error () ∧
    (fetch_and_decrypt_energy_data envBadKey fsStale false).success = false ∧
    (fetch_and_decrypt_energy_data envBadKey fsStale false).fetchAttempts = 0 ∧
    (fetch_and_decrypt_energy_data envBadKey fsStale false).fs = fsStale :=
  ⟨by decide,
   (key_validation_failure_fails_immediately envBadKey fsStale false
     (Or.inr (by decide)) (Or.inl (by decide))).1,
   (key_validation_failure_fails_immediately envBadKey fsStale false
     (Or.inr (by decide)) (Or.inl (by decide))).2.1,
   (key_validation_failure_fails_immediately envBadKey fsStale false
     (Or.inr (by decide)) (Or.inl (by decide))).2.2.2⟩

/-- C1: when the freshness gate does not short-circuit, the fetch
succeeds, the digest of the fetched ciphertext equals the `data_hash`
stored in the metadata file and the snapshot file exists,
`decrypt_and_verify` is never invoked, the call returns success, the
snapshot file is unchanged, and the metadata's `last_check_time` is
updated while every other metadata field keeps its previous value (the
metadata write itself succeeding). -/
theorem hash_match_skips_decrypt (env : Env) (fs : FS)
    (force_refresh : Bool) (c : String)
    (hgate : force_refresh = true ∨ should_skip_decryption env fs = false)
    (henc : validate_base64_key env.encKeyB64 32 = Except.ok 32)
    (hhmac : validate_base64_key env.hmacKeyB64 32 = Except.ok 32)
    (hfetch : (fetch_with_retry env.fetchOutcomes 3 2).result = Except.ok c)
    (hhash : metaGet (load_metadata fs) "data_hash" =
      some (JVal.str (env.hash c)))
    (hsnap : fs.snapshot.isSome = true)
    (hmw : env.metadataWriteOk = true) :
    (fetch_and_decrypt_energy_data env fs force_refresh).decryptCalls = 0 ∧
    (fetch_and_decrypt_energy_data env fs force_refresh).success = true ∧
    (fetch_and_decrypt_energy_data env fs force_refresh).fs.snapshot =
      fs.snapshot ∧
    metaGet (load_metadata
        (fetch_and_decrypt_energy_data env fs force_refresh).fs)
      "last_check_time" = some (JVal.str (isoTime env.now)) ∧
    ∀ k, k ≠ "last_check_time" →
      metaGet (load_metadata
          (fetch_and_decrypt_energy_data env fs force_refresh).fs) k =
        metaGet (load_metadata fs) k := by
  have hg : (!force_refresh && should_skip_decryption env fs) = false := by
    rcases hgate with h | h <;> simp [h]
  have hrun : fetch_and_decrypt_energy_data env fs force_refresh =
      { success := true,
        fs := { fs with metadataFile := some (Except.ok
          (metaSet (load_metadata fs) "last_check_time"
            (JVal.str (isoTime env.now)))) },
        gateSkipped := false,
        fetchAttempts := (fetch_with_retry env.fetchOutcomes 3 2).attempts,
        decryptCalls := 0 } := by
    simp only [fetch_and_decrypt_energy_data, hg, Bool.false_eq_true,
      if_false, henc, hhmac, hfetch, hhash, hsnap, save_metadata, hmw]
    simp
  rw [hrun]
  refine ⟨rfl, rfl, rfl, ?_, ?_⟩
  · simp only [load_metadata]
    exact metaGet_metaSet_same _ _ _
  · intro k hk
    simp only [load_metadata]
    exact metaGet_metaSet_ne _ _ _ _ hk

/-- C1 witness: stored hash `CT` matches the fetched ciphertext `CT`
under the identity digest; no decrypt call, `last_check_time` updated,
`last_fetch_time` preserved. -/
theorem hash_match_skips_decrypt_witness :
    metaGet (load_metadata fsHashMatch) "data_hash" =
      some (JVal.str (envHashMatch.hash "CT")) ∧
    (fetch_and_decrypt_energy_data envHashMatch fsHashMatch true).decryptCalls
      = 0 ∧
    (fetch_and_decrypt_energy_data envHashMatch fsHashMatch true).success
      = true ∧
    metaGet (load_metadata
        (fetch_and_decrypt_energy_data envHashMatch fsHashMatch true).fs)
      "last_fetch_time" = some (JVal.str "t0") := by
  have h := hash_match_skips_decrypt envHashMatch fsHashMatch true "CT"
    (Or.inl rfl) (by decide) (by decide) (by decide) (by decide) (by decide)
    (by decide)
  refine ⟨by decide, h.1, h.2.1, ?_⟩
  rw [h.2.2.2.2 "last_fetch_time" (by decide)]
  decide

theorem full_cycle_run (env : Env) (fs : FS) (force_refresh : Bool)
    (c : String) (v : JVal)
    (hg : (!force_refresh && should_skip_decryption env fs) = false)
    (henc : validate_base64_key env.encKeyB64 32 = Except.ok 32)
    (hhmac : validate_base64_key env.hmacKeyB64 32 = Except.ok 32)
    (hfetch : (fetch_with_retry env.fetchOutcomes 3 2).result = Except.ok c)
    (hchanged : metaGet (load_metadata fs) "data_hash" ≠
      some (JVal.str (env.hash c)))
    (hdec : env.decrypt c = Except.ok v)
    (hsw : env.snapshotWriteOk = true) :
    fetch_and_decrypt_energy_data env fs force_refresh =
      { success := true,
        fs := save_metadata env
          { fs with snapshot := some ⟨SnapContent.full v, env.now⟩ }
          (newCycleMetadata env c),
        gateSkipped := false,
        fetchAttempts := (fetch_with_retry env.fetchOutcomes 3 2).attempts,
        decryptCalls := 1 } := by
  have hcond : ¬(metaGet (load_metadata fs) "data_hash" =
      some (JVal.str (env.hash c)) ∧ fs.snapshot.isSome = true) := by
    intro hc
    exact hchanged hc.1
  simp only [fetch_and_decrypt_energy_data, hg, Bool.false_eq_true, if_false,
    henc, hhmac, hfetch, hdec, hsw, if_neg hcond]
  simp

/-- C2 counterexample: a run meeting all premises of the claim (the gate
does not short-circuit, the fetch succeeds with ciphertext `CT`, no
stored hash exists, decryption succeeds, both writes succeed) produces a
metadata file with no `source_size_bytes` field — the code stores the
ciphertext length under `file_size_bytes` — so the claim as stated fails
at this input. -/
theorem changed_hash_full_rewrite_counterexample :
    (fetch_and_decrypt_energy_data envDecOk fsEmpty false).success = true ∧
    (fetch_and_decrypt_energy_data envDecOk fsEmpty false).decryptCalls = 1 ∧
    metaGet (load_metadata
        (fetch_and_decrypt_energy_data envDecOk fsEmpty false).fs)
      "source_size_bytes" = none ∧
    metaGet (load_metadata
        (fetch_and_decrypt_energy_data envDecOk fsEmpty false).fs)
      "file_size_bytes" = some (JVal.num 2) := by
  decide

/-- C2 (amended): when the fetch succeeds and the fetched ciphertext's
digest differs from the stored `data_hash` (or no metadata/hash exists),
exactly one `decrypt_and_verify` call occurs, and on its success the
snapshot file is overwritten with the plaintext and the metadata file is
fully rewritten containing the new digest and the fields
`last_fetch_time`, `last_check_time`, `data_hash`, `file_size_bytes`
(the source's name for the ciphertext-size field), `source_url` and
`cache_max_age_hours`. -/
theorem changed_hash_full_rewrite (env : Env) (fs : FS)
    (force_refresh : Bool) (c : String) (v : JVal)
    (hgate : force_refresh = true ∨ should_skip_decryption env fs = false)
    (henc : validate_base64_key env.encKeyB64 32 = Except.ok 32)
    (hhmac : validate_base64_key env.hmacKeyB64 32 = Except.ok 32)
    (hfetch : (fetch_with_retry env.fetchOutcomes 3 2).result = Except.ok c)
    (hchanged : metaGet (load_metadata fs) "data_hash" ≠
      some (JVal.str (env.hash c)))
    (hdec : env.decrypt c = Except.ok v)
    (hsw : env.snapshotWriteOk = true)
    (hmw : env.metadataWriteOk = true) :
    (fetch_and_decrypt_energy_data env fs force_refresh).decryptCalls = 1 ∧
    (fetch_and_decrypt_energy_data env fs force_refresh).success = true ∧
    (fetch_and_decrypt_energy_data env fs force_refresh).fs.snapshot =
      some ⟨SnapContent.full v, env.now⟩ ∧
    (fetch_and_decrypt_energy_data env fs force_refresh).fs.metadataFile =
      some (Except.ok
        [("last_fetch_time", JVal.str (isoTime env.now)),
         ("last_check_time", JVal.str (isoTime env.now)),
         ("data_hash", JVal.str (env.hash c)),
         ("file_size_bytes", JVal.num (c.length : Int)),
         ("source_url", JVal.str DATA_SOURCE_URL),
         ("cache_max_age_hours", JVal.num CACHE_MAX_AGE_HOURS)]) := by
  have hg : (!force_refresh && should_skip_decryption env fs) = false := by
    rcases hgate with h | h <;> simp [h]
  rw [full_cycle_run env fs force_refresh c v hg henc hhmac hfetch hchanged
    hdec hsw]
  refine ⟨rfl, rfl, ?_, ?_⟩ <;>
    simp [save_metadata, hmw, newCycleMetadata]

/-- C2 witness: stale snapshot, no metadata file, ciphertext `CT`
decrypting to the payload `5`: one decrypt call, snapshot overwritten. -/
theorem changed_hash_full_rewrite_witness :
    envDecOk.decrypt "CT" = Except.ok (JVal.num 5) ∧
    metaGet (load_metadata fsStale) "data_hash" ≠
      some (JVal.str (envDecOk.hash "CT")) ∧
    (fetch_and_decrypt_energy_data envDecOk fsStale false).decryptCalls = 1 ∧
    (fetch_and_decrypt_energy_data envDecOk fsStale false).fs.snapshot =
      some ⟨SnapContent.full (JVal.num 5), 1000000⟩ := by
  have h := changed_hash_full_rewrite envDecOk fsStale false "CT" (JVal.num 5)
    (Or.inr (by decide)) (by decide) (by decide) (by decide) (by decide)
    (by decide) rfl rfl
  refine ⟨rfl, by decide, h.1, ?_⟩
  rw [h.2.2.1]
  rfl

/-- C4: when the pipeline reaches the network and then fails — the fetch
exhausts all retry attempts, or `decrypt_and_verify` fails on the fetched
ciphertext — the call returns success with the snapshot file's bytes
unchanged if a snapshot exists on disk (of any age), and returns failure
creating no snapshot if none exists; in both cases the snapshot file is
exactly what it was before the call. -/
theorem fallback_on_pipeline_failure (env : Env) (fs : FS)
    (force_refresh : Bool)
    (hgate : force_refresh = true ∨ should_skip_decryption env fs = false)
    (henc : validate_base64_key env.encKeyB64 32 = Except.ok 32)
    (hhmac : validate_base64_key env.hmacKeyB64 32 = Except.ok 32)
    (hfail : (fetch_with_retry env.fetchOutcomes 3 2).result =
        Except.error FetchErr.exhausted ∨
      ∃ c, (fetch_with_retry env.fetchOutcomes 3 2).result = Except.ok c ∧
        ¬(metaGet (load_metadata fs) "data_hash" =
            some (JVal.str (env.hash c)) ∧ fs.snapshot.isSome = true) ∧
        env.decrypt c = Except.error ()) :
    (fs.snapshot.isSome = true →
      (fetch_and_decrypt_energy_data env fs force_refresh).success = true) ∧
    (fs.snapshot = none →
      (fetch_and_decrypt_energy_data env fs force_refresh).success = false) ∧
    (fetch_and_decrypt_energy_data env fs force_refresh).fs.snapshot =
      fs.snapshot := by
  have hg : (!force_refresh && should_skip_decryption env fs) = false := by
    rcases hgate with h | h <;> simp [h]
  have hrun : ∃ a d, fetch_and_decrypt_energy_data env fs force_refresh =
      exceptFallback fs a d := by
    rcases hfail with h | ⟨c, hc, hcond, hdec⟩
    · refine ⟨(fetch_with_retry env.fetchOutcomes 3 2).attempts, 0, ?_⟩
      simp only [fetch_and_decrypt_energy_data, hg, Bool.false_eq_true,
        if_false, henc, hhmac, h]
    · refine ⟨(fetch_with_retry env.fetchOutcomes 3 2).attempts, 1, ?_⟩
      simp only [fetch_and_decrypt_energy_data, hg, Bool.false_eq_true,
        if_false, henc, hhmac, hc, if_neg hcond, hdec]
  obtain ⟨a, d, hrun⟩ := hrun
  rw [hrun]
  refine ⟨fun hs => ?_, fun hs => ?_, by rw [exceptFallback_fs fs a d]⟩
  · rw [exceptFallback_success, hs]
  · rw [exceptFallback_success, hs]
    rfl

/-- C4 witness: three transient failures exhaust the retries while a
stale snapshot exists; the call succeeds and the snapshot is untouched. -/
theorem fallback_on_pipeline_failure_witness :
    (fetch_with_retry envExhaust.fetchOutcomes 3 2).result =
      Except.error FetchErr.exhausted ∧
    fsStale.snapshot.isSome = true ∧
    (fetch_and_decrypt_energy_data envExhaust fsStale false).success = true ∧
    (fetch_and_decrypt_energy_data envExhaust fsStale false).fs.snapshot =
      fsStale.snapshot := by
  have h := fallback_on_pipeline_failure envExhaust fsStale false
    (Or.inr (by decide)) (by decide) (by decide) (Or.inl (by decide))
  exact ⟨by decide, by decide, h.1 (by decide), h.2.2⟩

/-- C9: a missing or unparseable metadata file makes `load_metadata`
return the empty dict instead of raising, so the hash comparison finds no
previous `data_hash` and a full decrypt-and-persist cycle runs: one
decrypt call, success, and the snapshot overwritten with the new
plaintext. -/
theorem corrupt_metadata_recovers (env : Env) (fs : FS)
    (force_refresh : Bool) (c : String) (v : JVal)
    (hmdf : fs.metadataFile = none ∨ fs.metadataFile = some (Except.error ()))
    (hgate : force_refresh = true ∨ should_skip_decryption env fs = false)
    (henc : validate_base64_key env.encKeyB64 32 = Except.ok 32)
    (hhmac : validate_base64_key env.hmacKeyB64 32 = Except.ok 32)
    (hfetch : (fetch_with_retry env.fetchOutcomes 3 2).result = Except.ok c)
    (hdec : env.decrypt c = Except.ok v)
    (hsw : env.snapshotWriteOk = true) :
    load_metadata fs = [] ∧
    metaGet (load_metadata fs) "data_hash" = none ∧
    (fetch_and_decrypt_energy_data env fs force_refresh).decryptCalls = 1 ∧
    (fetch_and_decrypt_energy_data env fs force_refresh).success = true ∧
    (fetch_and_decrypt_energy_data env fs force_refresh).fs.snapshot =
      some ⟨SnapContent.full v, env.now⟩ := by
  have hld : load_metadata fs = [] := by
    rcases hmdf with h | h <;> simp [load_metadata, h]
  have hchanged : metaGet (load_metadata fs) "data_hash" ≠
      some (JVal.str (env.hash c)) := by
    rw [hld]
    simp [metaGet]
  have hg : (!force_refresh && should_skip_decryption env fs) = false := by
    rcases hgate with h | h <;> simp [h]
  rw [full_cycle_run env fs force_refresh c v hg henc hhmac hfetch hchanged
    hdec hsw]
  refine ⟨hld, by rw [hld]; rfl, rfl, rfl, ?_⟩
  simp [save_metadata]
  split <;> rfl

/-- C9 witness: an unparseable metadata file alongside a stale snapshot
still yields a full successful cycle. -/
theorem corrupt_metadata_recovers_witness :
    fsCorruptMeta.metadataFile = some (Except.error ()) ∧
    load_metadata fsCorruptMeta = [] ∧
    (fetch_and_decrypt_energy_data envDecOk fsCorruptMeta false).decryptCalls
      = 1 ∧
    (fetch_and_decrypt_energy_data envDecOk fsCorruptMeta false).success
      = true := by
  have h := corrupt_metadata_recovers envDecOk fsCorruptMeta false "CT"
    (JVal.num 5) (Or.inr rfl) (Or.inr (by decide)) (by decide) (by decide)
    (by decide) rfl rfl
  exact ⟨rfl, h.1, h.2.2.1, h.2.2.2.1⟩

/-- C10: `save_metadata` catches every exception raised while writing, so
a cycle whose snapshot write succeeds but whose metadata write fails
still returns success, with the snapshot file holding the new plaintext
and the on-disk metadata left exactly at the previous cycle's content;
moreover under a failing metadata write `save_metadata` leaves any file
system unchanged. -/
theorem metadata_write_failure_still_succeeds (env : Env) (fs : FS)
    (force_refresh : Bool) (c : String) (v : JVal)
    (hgate : force_refresh = true ∨ should_skip_decryption env fs = false)
    (henc : validate_base64_key env.encKeyB64 32 = Except.ok 32)
    (hhmac : validate_base64_key env.hmacKeyB64 32 = Except.ok 32)
    (hfetch : (fetch_with_retry env.fetchOutcomes 3 2).result = Except.ok c)
    (hchanged : metaGet (load_metadata fs) "data_hash" ≠
      some (JVal.str (env.hash c)))
    (hdec : env.decrypt c = Except.ok v)
    (hsw : env.snapshotWriteOk = true)
    (hmw : env.metadataWriteOk = false) :
    (fetch_and_decrypt_energy_data env fs force_refresh).success = true ∧
    (fetch_and_decrypt_energy_data env fs force_refresh).fs.snapshot =
      some ⟨SnapContent.full v, env.now⟩ ∧
    (fetch_and_decrypt_energy_data env fs force_refresh).fs.metadataFile =
      fs.metadataFile ∧
    ∀ (fs' : FS) (md : Metadata), save_metadata env fs' md = fs' := by
  have hg : (!force_refresh && should_skip_decryption env fs) = false := by
    rcases hgate with h | h <;> simp [h]
  rw [full_cycle_run env fs force_refresh c v hg henc hhmac hfetch hchanged
    hdec hsw]
  refine ⟨?_, ?_, ?_, fun fs' md => ?_⟩ <;>
    simp [save_metadata, hmw]

/-- C10 witness: snapshot write succeeds, metadata write raises: success
with new snapshot and untouched (absent) metadata file. -/
theorem metadata_write_failure_still_succeeds_witness :
    envMetaFail.metadataWriteOk = false ∧
    (fetch_and_decrypt_energy_data envMetaFail fsStale false).success = true ∧
    (fetch_and_decrypt_energy_data envMetaFail fsStale false).fs.snapshot =
      some ⟨SnapContent.full (JVal.num 5), 1000000⟩ ∧
    (fetch_and_decrypt_energy_data envMetaFail fsStale false).fs.metadataFile
      = fsStale.metadataFile := by
  have h := metadata_write_failure_still_succeeds envMetaFail fsStale false
    "CT" (JVal.num 5) (Or.inr (by decide)) (by decide) (by decide)
    (by decide) (by decide) rfl rfl rfl
  refine ⟨rfl, h.1, ?_, h.2.2.1⟩
  rw [h.2.1]
  rfl

/-- C6: evaluation at the failing input of the snapshot-atomicity claim.
With a stale snapshot on disk, changed remote content and a successful
decryption, a persist step that raises does not leave the prior snapshot
bytes unchanged: `open(path, 'w')` truncates the file in place before
`json.dump` writes, so the snapshot is left truncated — and the outer
fallback handler then even reports success over the corrupt file.  (A
failing `decrypt_and_verify`, by contrast, does leave the snapshot
unchanged, as proved for the fallback path.) -/
theorem snapshot_truncating_write_run :
    fsStale.snapshot = some ⟨SnapContent.full (JVal.num 7), 0⟩ ∧
    envSnapFail.snapshotWriteOk = false ∧
    (fetch_and_decrypt_energy_data envSnapFail fsStale false).fs.snapshot =
      some ⟨SnapContent.truncated, 1000000⟩ ∧
    (fetch_and_decrypt_energy_data envSnapFail fsStale false).success =
      true := by
  decide

/-- C8: `save_data_file` of utils/helpers.py raises `AttributeError` for
every dict input — in encrypted mode it evaluates `data.to_dict()` and in
plaintext mode `data.write_to_json(file_path)`, attributes a Python dict
does not have — evaluated here at the dict `{"a": 1}`; the documented
round-trip through `load_data_file` therefore never takes place, since no
file is ever written. -/
theorem save_data_file_raises_on_dict :
    save_data_file [("a", JVal.num 1)] "out.json"
      (some fun _ => "CIPHERTEXT") true = Except.error PyErr.attributeError ∧
    save_data_file [("a", JVal.num 1)] "out.json" none false =
      Except.error PyErr.attributeError := by
  decide
